import Mathlib

/-!
Shallow embedding of the tool-orchestrated turn engine of the
`gemini-hackathon-dnd-project` repository (TypeScript backend), together
with theorems settling the behavioural claims about it.

Embedding conventions:
* JavaScript numbers are embedded as rationals (`ℚ`); `Math.round` is
  `⌊x + 1/2⌋` (JS rounds half-way values toward positive infinity).
* `Record<string, unknown>` argument bags are association lists of
  `JSValue`s; property access is first-match lookup.
* In-place mutation of `GameState` / `ExecutionContext` becomes explicit
  state passing: every executor returns the result together with the
  updated context.
* External effects (`uuidv4()`, `Date.now()`, `Math.random()`, the LLM
  backend, JSON parsing of raw model text) enter as explicit parameters.
* String trimming / splitting are re-implemented structurally on the
  character list underlying `String`, mirroring the JS semantics on the
  ASCII whitespace the engine meets.
-/

/-- JavaScript runtime values, as far as the tool layer inspects them. -/
inductive JSValue where
  | str (s : String)
  | num (q : ℚ)
  | bool (b : Bool)
  | null
  | arr (elems : List JSValue)
  | obj (fields : List (String × JSValue))

/-- A `Record<string, unknown>` argument bag. -/
abbrev Args := List (String × JSValue)

/-- Property access `args.k` (first binding wins, as in a JS object). -/
def Args.get (a : Args) (k : String) : Option JSValue :=
  (a.find? (fun p => p.1 = k)).map (fun p => p.2)

/-- `typeof v === "number"` projection. -/
def JSValue.asNumber : JSValue → Option ℚ
  | .num q => some q
  | _ => none

/-- `typeof v === "string"` projection. -/
def JSValue.asString : JSValue → Option String
  | .str s => some s
  | _ => none

/-- Numeric property access guarded by `typeof args.k === "number"`. -/
def Args.getNum (a : Args) (k : String) : Option ℚ :=
  (a.get k).bind JSValue.asNumber

/-- JS truthiness for the values the tool layer can meet (`NaN` is outside
the rational embedding). -/
def JSValue.truthy : JSValue → Bool
  | .str s => s ≠ ""
  | .num q => q ≠ 0
  | .bool b => b
  | .null => false
  | .arr _ => true
  | .obj _ => true

/-- String rendering used only inside human-readable messages (object and
array renderings are abbreviated; no claim depends on them). -/
def JSValue.display : JSValue → String
  | .str s => s
  | .num q => toString q
  | .bool b => if b then "true" else "false"
  | .null => "null"
  | .arr _ => "[array]"
  | .obj _ => "[object Object]"

/-- `args.reason as string || "unknown"`: a truthy value is used as-is,
anything falsy (missing, empty string, 0, null, false) becomes
`"unknown"`. -/
def reasonOr (a : Args) : String :=
  match a.get "reason" with
  | some v => if v.truthy then v.display else "unknown"
  | none => "unknown"

/-- `Math.round` of JS: round half toward positive infinity. -/
def jsRound (q : ℚ) : ℤ := ⌊q + 1/2⌋

/-- `clamp` from `toolExecutor.ts`: `Math.max(min, Math.min(max, value))`. -/
def clamp (value mn mx : ℚ) : ℚ := max mn (min mx value)

/-- The whitespace class JS `trim` / `\s` recognises, restricted to the
ASCII range the engine meets. -/
def jsIsSpace (c : Char) : Bool :=
  c = ' ' ∨ c = '\t' ∨ c = '\n' ∨ c = '\r' ∨ c = '\x0b' ∨ c = '\x0c'

/-- Characters of a JS `String.prototype.trim` result. -/
def trimChars (cs : List Char) : List Char :=
  ((cs.dropWhile jsIsSpace).reverse.dropWhile jsIsSpace).reverse

/-- JS `s.trim()`. -/
def jsTrim (s : String) : String := String.mk (trimChars s.data)

/-- Splits on `"\n"` exactly as JS `text.split("\n")` (keeps empty
pieces). -/
def splitLinesAux : List Char → List Char → List String
  | [], acc => [String.mk acc.reverse]
  | c :: rest, acc =>
    if c = '\n' then String.mk acc.reverse :: splitLinesAux rest []
    else splitLinesAux rest (c :: acc)

/-- JS `text.split("\n")`. -/
def jsLines (s : String) : List String := splitLinesAux s.data []

/-- `PlayerStats` (latest revision of `models/types.ts`; the earlier
revision named the last three fields `str`/`int`/`dex`). -/
structure PlayerStats where
  hp : ℚ
  sanity : ℚ
  strength : ℚ
  intelligence : ℚ
  dexterity : ℚ
deriving Repr, DecidableEq

/-- `InventoryItem` from `models/types.ts`. -/
structure InventoryItem where
  id : String
  name : String
  desc : String
deriving Repr, DecidableEq

/-- `EnvironmentContext` from `models/types.ts`. -/
structure EnvironmentContext where
  location : String
  materials : List String
  lighting : String
  atmosphere : String
deriving Repr, DecidableEq

/-- `StatCheckType` from `models/types.ts`. -/
inductive StatCheckType where
  | strength
  | intelligence
  | dexterity
deriving Repr, DecidableEq

/-- `ChoiceCheck` from `models/types.ts`. -/
structure ChoiceCheck where
  stat : StatCheckType
  required : ℚ
deriving Repr, DecidableEq

/-- `ChoiceOption` from `models/types.ts` (`type` is kept as a plain
optional string since nothing inspects it). -/
structure ChoiceOption where
  text : String
  type : Option String := none
  check : Option ChoiceCheck := none
deriving Repr, DecidableEq

/-- `HistoryMessage` from `models/types.ts`. -/
structure HistoryMessage where
  role : String
  parts : String
deriving Repr, DecidableEq

/-- `GameState` from `models/types.ts` (latest revision): optional fields
stay `Option` so that JS truthiness checks on them are faithful. -/
structure GameState where
  stats : PlayerStats
  inventory : List InventoryItem
  tags : List String
  history : List HistoryMessage
  isGameOver : Bool
  turn : Nat
  currentLocation : Option String := none
  locationHistory : Option (List String) := none
  environment : Option EnvironmentContext := none
  pendingChoices : Option (List ChoiceOption) := none
deriving Repr, DecidableEq

/-- `ToolResult` from `toolExecutor.ts`. -/
structure ToolResult where
  success : Bool
  message : String
  data : Option JSValue := none

/-- `ToolCallLog` from `toolExecutor.ts` (`timestamp` is the `Date.now()`
value supplied by the environment). -/
structure ToolCallLog where
  toolName : String
  args : Args
  result : ToolResult
  timestamp : Nat

/-- `ExecutionContext` from `toolExecutor.ts`. -/
structure ExecutionContext where
  state : GameState
  toolCalls : List ToolCallLog
  imagePrompt : Option String
  gameOverTriggered : Bool
  gameOverDescription : Option String

/-- `createExecutionContext` from `toolExecutor.ts`. -/
def createExecutionContext (state : GameState) : ExecutionContext :=
  { state := state
    toolCalls := []
    imagePrompt := none
    gameOverTriggered := false
    gameOverDescription := none }

/-- `validateNonEmptyString` from `toolExecutor.ts`: `some trimmed` on a
non-blank string, `none` otherwise (the caller then builds the error
message with the parameter name). -/
def validateNonEmptyString (v : Option JSValue) : Option String :=
  match v with
  | some (.str s) => if jsTrim s = "" then none else some (jsTrim s)
  | _ => none

/-- The failure message `validateNonEmptyString` produces (the source
wraps the parameter name in single quotes; the quotes are elided here). -/
def invalidStringMsg (paramName : String) : String :=
  "Invalid or missing " ++ paramName ++
    " parameter. Must be a non-empty, non-whitespace string."

example : validateNonEmptyString (some (.str "  hi ")) = some "hi" := rfl

example : validateNonEmptyString (some (.str "   ")) = none := rfl

example : validateNonEmptyString (some (.num 3)) = none := rfl

example : jsLines "a\nb\n" = ["a", "b", ""] := rfl

/-- JS `s.toLowerCase()` on the ASCII item/tag names the engine uses. -/
def jsToLower (s : String) : String := String.mk (s.data.map Char.toLower)

/-- `executeUpdatePlayerStats` from `toolExecutor.ts`: applies any numeric
deltas present, clamping `hp`/`sanity` into `[0, 100]`, and always
succeeds. -/
def executeUpdatePlayerStats (ctx : ExecutionContext) (args : Args) :
    ToolResult × ExecutionContext :=
  let st0 := ctx.state.stats
  let (st1, c1) :=
    match args.getNum "hp" with
    | some d =>
      let newHp := clamp (st0.hp + d) 0 100
      ({ st0 with hp := newHp },
        ["HP: " ++ toString st0.hp ++ " -> " ++ toString newHp])
    | none => (st0, [])
  let (st2, c2) :=
    match args.getNum "sanity" with
    | some d =>
      let newSanity := clamp (st1.sanity + d) 0 100
      ({ st1 with sanity := newSanity },
        c1 ++ ["Sanity: " ++ toString st1.sanity ++ " -> " ++ toString newSanity])
    | none => (st1, c1)
  let (st3, c3) :=
    match args.getNum "strength" with
    | some d =>
      ({ st2 with strength := st2.strength + d },
        c2 ++ ["Strength changed by " ++ toString d])
    | none => (st2, c2)
  let (st4, c4) :=
    match args.getNum "intelligence" with
    | some d =>
      ({ st3 with intelligence := st3.intelligence + d },
        c3 ++ ["Intelligence changed by " ++ toString d])
    | none => (st3, c3)
  let (st5, c5) :=
    match args.getNum "dexterity" with
    | some d =>
      ({ st4 with dexterity := st4.dexterity + d },
        c4 ++ ["Dexterity changed by " ++ toString d])
    | none => (st4, c4)
  let reason := reasonOr args
  ({ success := true
     message := "Stats updated (" ++ reason ++ "): " ++
       String.intercalate ", " c5 ++ ". Current HP: " ++ toString st5.hp ++
       ", Sanity: " ++ toString st5.sanity
     data := some (.obj [("currentStats",
       .obj [("hp", .num st5.hp), ("sanity", .num st5.sanity),
             ("strength", .num st5.strength),
             ("intelligence", .num st5.intelligence),
             ("dexterity", .num st5.dexterity)]),
       ("changes", .arr (c5.map JSValue.str))]) },
   { ctx with state := { ctx.state with stats := st5 } })

/-- `executeInventoryAction` from `toolExecutor.ts`. `freshId` stands for
the `uuidv4()` the source draws for a new item. The source finds the
removal target with `findIndex` + `splice`; here the same first
case-insensitive name match is taken with `find?` and removed with
`eraseIdx` at its `findIdx`. -/
def executeInventoryAction (ctx : ExecutionContext) (args : Args)
    (freshId : String) : ToolResult × ExecutionContext :=
  let state := ctx.state
  match validateNonEmptyString (args.get "action") with
  | none =>
    ({ success := false
       message := "Invalid or missing action parameter. Must be a non-empty, non-whitespace string (add or remove)." },
     ctx)
  | some trimmedAction =>
    let action := jsToLower trimmedAction
    match validateNonEmptyString (args.get "itemName") with
    | none => ({ success := false, message := invalidStringMsg "itemName" }, ctx)
    | some itemName =>
      let reason := reasonOr args
      if action = "add" then
        let itemDescription :=
          match args.get "itemDescription" with
          | some v => if v.truthy then v.display else ""
          | none => ""
        let newItem : InventoryItem :=
          { id := freshId, name := itemName, desc := itemDescription }
        let inventory := state.inventory ++ [newItem]
        ({ success := true
           message := "Item \"" ++ itemName ++ "\" added to inventory. Reason: " ++
             reason ++ ". Total items: " ++ toString inventory.length
           data := some (.obj [
             ("item", .obj [("id", .str freshId), ("name", .str itemName),
               ("desc", .str itemDescription)]),
             ("inventorySize", .num inventory.length)]) },
         { ctx with state := { state with inventory := inventory } })
      else if action = "remove" then
        let nameMatches := fun (item : InventoryItem) =>
          jsToLower item.name = jsToLower itemName
        match state.inventory.find? nameMatches with
        | none =>
          ({ success := false
             message := "Item \"" ++ itemName ++ "\" not found in inventory. Cannot remove."
             data := some (.obj [("inventory",
               .arr (state.inventory.map (fun i => .str i.name)))]) },
           ctx)
        | some removed =>
          let inventory := state.inventory.eraseIdx
            (state.inventory.findIdx nameMatches)
          ({ success := true
             message := "Item \"" ++ removed.name ++ "\" removed from inventory. Reason: " ++ reason
             data := some (.obj [
               ("removedItem", .obj [("id", .str removed.id),
                 ("name", .str removed.name), ("desc", .str removed.desc)]),
               ("inventorySize", .num inventory.length)]) },
           { ctx with state := { state with inventory := inventory } })
      else
        ({ success := false
           message := "Unknown inventory action: " ++ action ++ ". Valid actions are add or remove." },
         ctx)

/-- `executeAddTag` from `toolExecutor.ts`: idempotent add (duplicate is a
no-op success). -/
def executeAddTag (ctx : ExecutionContext) (args : Args) :
    ToolResult × ExecutionContext :=
  let state := ctx.state
  match validateNonEmptyString (args.get "tag") with
  | none => ({ success := false, message := invalidStringMsg "tag" }, ctx)
  | some tag =>
    let reason := reasonOr args
    if state.tags.contains tag then
      ({ success := true
         message := "Tag \"" ++ tag ++ "\" already exists. No change needed."
         data := some (.obj [("tags", .arr (state.tags.map JSValue.str))]) },
       ctx)
    else
      let tags := state.tags ++ [tag]
      ({ success := true
         message := "Tag \"" ++ tag ++ "\" added. Reason: " ++ reason ++
           ". Active tags: " ++ String.intercalate ", " tags
         data := some (.obj [("tags", .arr (tags.map JSValue.str))]) },
       { ctx with state := { state with tags := tags } })

/-- `executeRemoveTag` from `toolExecutor.ts`: strict remove (absent tag
is a failure). The source removes with `indexOf` + `splice`; `List.erase`
removes the same first occurrence. -/
def executeRemoveTag (ctx : ExecutionContext) (args : Args) :
    ToolResult × ExecutionContext :=
  let state := ctx.state
  match validateNonEmptyString (args.get "tag") with
  | none => ({ success := false, message := invalidStringMsg "tag" }, ctx)
  | some tag =>
    let reason := reasonOr args
    if state.tags.contains tag then
      let tags := state.tags.erase tag
      ({ success := true
         message := "Tag \"" ++ tag ++ "\" removed. Reason: " ++ reason ++
           ". Active tags: " ++
           (if tags.isEmpty then "none" else String.intercalate ", " tags)
         data := some (.obj [("tags", .arr (tags.map JSValue.str))]) },
       { ctx with state := { state with tags := tags } })
    else
      ({ success := false
         message := "Tag \"" ++ tag ++ "\" not found. Cannot remove."
         data := some (.obj [("tags", .arr (state.tags.map JSValue.str))]) },
       ctx)

/-- `executeTriggerGameOver` from `toolExecutor.ts`: validates both
strings, then latches `isGameOver` to `true` and records the ending. -/
def executeTriggerGameOver (ctx : ExecutionContext) (args : Args) :
    ToolResult × ExecutionContext :=
  match validateNonEmptyString (args.get "endingType") with
  | none => ({ success := false, message := invalidStringMsg "endingType" }, ctx)
  | some endingType =>
    match validateNonEmptyString (args.get "deathDescription") with
    | none =>
      ({ success := false, message := invalidStringMsg "deathDescription" }, ctx)
    | some deathDescription =>
      ({ success := true
         message := "GAME OVER triggered. Type: " ++ endingType ++
           ". The players journey ends here."
         data := some (.obj [("endingType", .str endingType),
           ("deathDescription", .str deathDescription)]) },
       { ctx with
           state := { ctx.state with isGameOver := true }
           gameOverTriggered := true
           gameOverDescription := some deathDescription })

/-- The `materials` argument handling of `executeGenerateSceneImage`:
keep string entries with non-blank trim (entries are kept untrimmed). -/
def materialsArg (v : Option JSValue) : List String :=
  match v with
  | some (.arr xs) =>
    xs.filterMap (fun x =>
      match x with
      | .str s => if jsTrim s = "" then none else some s
      | _ => none)
  | _ => []

/-- `Materials: .... Lighting: .... Atmosphere: ...` detail block of
`executeGenerateSceneImage`. -/
def envDetails (materials : List String) (lighting atmosphere : String) : String :=
  "Materials: " ++ String.intercalate ", " materials ++ ". Lighting: " ++
    lighting ++ ". Atmosphere: " ++ atmosphere

/-- JS truthiness of an optional string (`undefined` and `""` are falsy). -/
def optStrTruthy : Option String → Bool
  | none => false
  | some s => s ≠ ""

/-- The continuity prompt selection of `executeGenerateSceneImage`
(`toolExecutor.ts` lines 330-346), extracted as the pure function over
the previous environment/location that the source computes inline:
first branch needs a previous environment and the same location, its
inner split is on a non-empty material overlap; second branch needs a
truthy previous location different from the new one; otherwise the
starting-location prompt. -/
def contextualPrompt (previousEnvironment : Option EnvironmentContext)
    (previousLocation : Option String) (location : String)
    (materials : List String) (lighting atmosphere visualDescription : String) :
    String :=
  let details := envDetails materials lighting atmosphere
  if previousEnvironment.isSome ∧ previousLocation = some location then
    let materialsSame :=
      match previousEnvironment with
      | some env => env.materials.any (fun m => materials.contains m)
      | none => false
    if materialsSame then
      "Continuing in " ++ location ++ " (" ++ details ++ "): " ++ visualDescription
    else
      "Still in " ++ location ++ ", but environment changed (" ++ details ++
        "): " ++ visualDescription
  else if optStrTruthy previousLocation ∧ previousLocation ≠ some location then
    "Transitioning from " ++ previousLocation.getD "" ++ " to " ++ location ++
      " (" ++ details ++ "): " ++ visualDescription
  else
    "Starting location " ++ location ++ " (" ++ details ++ "): " ++
      visualDescription

/-- `executeGenerateSceneImage` from `toolExecutor.ts`: validates all
scene arguments, overwrites the environment context, records the location
history, and stores the continuity-aware image prompt. -/
def executeGenerateSceneImage (ctx : ExecutionContext) (args : Args) :
    ToolResult × ExecutionContext :=
  let style :=
    match args.get "style" with
    | some v => if v.truthy then v.display else "horror"
    | none => "horror"
  match validateNonEmptyString (args.get "location") with
  | none => ({ success := false, message := invalidStringMsg "location" }, ctx)
  | some location =>
    let materials := materialsArg (args.get "materials")
    if materials.isEmpty then
      ({ success := false
         message := "Invalid or missing materials parameter. Must be a non-empty array of strings." },
       ctx)
    else
      match validateNonEmptyString (args.get "lighting") with
      | none => ({ success := false, message := invalidStringMsg "lighting" }, ctx)
      | some lighting =>
        match validateNonEmptyString (args.get "atmosphere") with
        | none =>
          ({ success := false, message := invalidStringMsg "atmosphere" }, ctx)
        | some atmosphere =>
          match validateNonEmptyString (args.get "visualDescription") with
          | none =>
            ({ success := false, message := invalidStringMsg "visualDescription" }, ctx)
          | some visualDescription =>
            let previousEnvironment := ctx.state.environment
            let previousLocation := ctx.state.currentLocation
            let newEnv : EnvironmentContext :=
              { location := location, materials := materials,
                lighting := lighting, atmosphere := atmosphere }
            let history0 := (ctx.state.locationHistory).getD []
            let locationHistory :=
              if history0.contains location then history0
              else history0 ++ [location]
            let prompt := contextualPrompt previousEnvironment previousLocation
              location materials lighting atmosphere visualDescription
            let imagePrompt := prompt ++ ", " ++ style ++
              " style, cinematic lighting, detailed, atmospheric"
            ({ success := true
               message := "Scene image queued for generation in \"" ++ location ++
                 "\" with materials [" ++ String.intercalate ", " materials ++
                 "], lighting: " ++ lighting ++ ", atmosphere: " ++ atmosphere
               data := some (.obj [
                 ("imagePrompt", .str imagePrompt), ("style", .str style),
                 ("location", .str location),
                 ("materials", .arr (materials.map JSValue.str)),
                 ("lighting", .str lighting), ("atmosphere", .str atmosphere)]) },
             { ctx with
                 state := { ctx.state with
                   environment := some newEnv
                   currentLocation := some location
                   locationHistory := some locationHistory }
                 imagePrompt := some imagePrompt })

/-- `executeTool` from `toolExecutor.ts`: dispatch on the tool name, then
append the invocation to the audit log whatever the outcome. `freshId`
and `now` stand for the `uuidv4()` and `Date.now()` effects. -/
def executeTool (ctx : ExecutionContext) (toolName : String) (args : Args)
    (freshId : String) (now : Nat) : ToolResult × ExecutionContext :=
  let (result, ctx1) :=
    match toolName with
    | "update_player_stats" => executeUpdatePlayerStats ctx args
    | "inventory_action" => executeInventoryAction ctx args freshId
    | "add_tag" => executeAddTag ctx args
    | "remove_tag" => executeRemoveTag ctx args
    | "trigger_game_over" => executeTriggerGameOver ctx args
    | "generate_scene_image" => executeGenerateSceneImage ctx args
    | _ => ({ success := false, message := "Unknown tool: " ++ toolName }, ctx)
  (result,
   { ctx1 with toolCalls := ctx1.toolCalls ++
       [{ toolName := toolName, args := args, result := result, timestamp := now }] })

/-- `IntentType` from `routerService.ts`. -/
inductive IntentType where
  | exploration
  | combat
  | dialogue
  | item_use
  | self_harm
  | escape_attempt
  | rest
  | unknown
deriving Repr, DecidableEq

/-- `RouterResult` from `routerService.ts` (difficulty and tone stay
strings; only `intent` is ever branched on downstream). -/
structure RouterResult where
  intent : IntentType
  confidence : ℚ
  reasoning : String
  suggestedDifficulty : String
  emotionalTone : String
deriving Repr, DecidableEq

/-- Property assignment `adjusted.k = v` after an `{...args}` spread. -/
def Args.set (a : Args) (k : String) (v : JSValue) : Args :=
  if (a.find? (fun p => p.1 = k)).isSome then
    a.map (fun p => if p.1 = k then (k, v) else p)
  else a ++ [(k, v)]

/-- The `physicalIntents` set of `adjustStatUpdates`. -/
def physicalIntents : List IntentType := [.combat, .escape_attempt]

/-- The `mentalIntents` set of `adjustStatUpdates`. -/
def mentalIntents : List IntentType :=
  [.exploration, .dialogue, .escape_attempt, .rest, .item_use, .unknown]

/-- `adjustNegativeDelta` from the orchestrator service: non-negative
deltas pass through; a negative delta is scaled by `1 - modifier`,
rounded, and floored to `-1` if the rounding produced `0`. -/
def adjustNegativeDelta (delta modifier : ℚ) : ℚ :=
  if 0 ≤ delta then delta
  else
    let adjustedValue := jsRound (delta * (1 - modifier))
    if adjustedValue = 0 then -1 else (adjustedValue : ℚ)

/-- The `physicalModifier` computed inside `adjustStatUpdates`:
`clamp((strength - 5) * 0.04 + (dexterity - 5) * 0.03, -0.3, 0.3)`. -/
def physicalModifier (stats : PlayerStats) : ℚ :=
  clamp ((stats.strength - 5) * (4/100) + (stats.dexterity - 5) * (3/100))
    (-(3/10)) (3/10)

/-- The `mentalModifier` computed inside `adjustStatUpdates`:
`clamp((intelligence - 5) * 0.05, -0.25, 0.25)`. -/
def mentalModifier (stats : PlayerStats) : ℚ :=
  clamp ((stats.intelligence - 5) * (5/100)) (-(1/4)) (1/4)

/-- `adjustStatUpdates` from the orchestrator service: intent-aware
difficulty adjustment of a `update_player_stats` argument bag. -/
def adjustStatUpdates (args : Args) (state : GameState)
    (routerResult : Option RouterResult) : Args :=
  let intent := match routerResult with
    | some r => r.intent
    | none => .unknown
  let adjusted :=
    match args.getNum "hp" with
    | some hp =>
      if physicalIntents.contains intent then
        args.set "hp" (.num (adjustNegativeDelta hp (physicalModifier state.stats)))
      else args
    | none => args
  match adjusted.getNum "sanity" with
  | some sanity =>
    if mentalIntents.contains intent then
      adjusted.set "sanity"
        (.num (adjustNegativeDelta sanity (mentalModifier state.stats)))
    else adjusted
  | none => adjusted

/-- Match of `extractChoices` first regex `^\s*[1-3]\s*[.):]\s*(.+)`.
Returns the tail after the marker when the line matches (the caller trims
it, which coincides with the regex capture after its leading `\s*`); a
line whose tail is empty does not match (`.+` needs a character; an
all-space tail matches in the source but its capture trims to the empty
string and is discarded by the caller, the same end state as `none`
here). -/
def matchNumberedChoiceLine (line : String) : Option String :=
  match line.data.dropWhile jsIsSpace with
  | c :: rest =>
    if c = '1' ∨ c = '2' ∨ c = '3' then
      match rest.dropWhile jsIsSpace with
      | d :: rest2 =>
        if d = '.' ∨ d = ')' ∨ d = ':' then
          if rest2 = [] then none else some (String.mk rest2)
        else none
      | [] => none
    else none
  | [] => none

/-- Match of `extractChoices` second regex `^\s*[-•]\s*(.+)`, with the
same tail/capture convention as `matchNumberedChoiceLine`. -/
def matchBulletChoiceLine (line : String) : Option String :=
  match line.data.dropWhile jsIsSpace with
  | c :: rest =>
    if c = '-' ∨ c = '•' then
      if rest = [] then none else some (String.mk rest)
    else none
  | [] => none

/-- `choice.replace(/^\[|\]$/g, "")`: drop one leading `[` and one
trailing `]`. -/
def stripEdgeBrackets (s : String) : String :=
  let s1 :=
    match s.data with
    | c :: rest => if c = '[' then String.mk rest else s
    | [] => s
  match s1.data.reverse with
  | c :: rest => if c = ']' then String.mk rest.reverse else s1
  | [] => s1

/-- The localized default filler choices of `extractChoices`. -/
def CHOICE_DEFAULTS : List String :=
  ["Осмотреться вокруг", "Попытаться двигаться дальше", "Замереть и прислушаться"]

/-- The trailing `while (choices.length < 3) push defaults[length]` loop
and `slice(0, 3)` of `extractChoices`: the loop body runs at most three
times, so it is unrolled. -/
def padToThree (cs : List String) : List String :=
  let padded1 :=
    if cs.length < 3 then cs ++ [CHOICE_DEFAULTS.getD cs.length ""]
    else cs
  let padded2 :=
    if padded1.length < 3 then padded1 ++ [CHOICE_DEFAULTS.getD padded1.length ""]
    else padded1
  let padded3 :=
    if padded2.length < 3 then padded2 ++ [CHOICE_DEFAULTS.getD padded2.length ""]
    else padded2
  padded3.take 3

/-- `extractChoices` from the orchestrator service: collect deduplicated
numbered-list items, add bullet items while fewer than 3 were found, pad
with the defaults and truncate to exactly 3. The source `while` loop
pushes `defaults[choices.length]` while the length is below 3, hence it
runs at most three times; it is unrolled here. -/
def extractChoices (text : String) : List String :=
  let lines := jsLines text
  let numbered := lines.foldl (fun choices line =>
    match matchNumberedChoiceLine line with
    | some cap =>
      let choice := stripEdgeBrackets (jsTrim cap)
      if choice ≠ "" ∧ ¬ choices.contains choice then choices ++ [choice]
      else choices
    | none => choices) []
  let withBullets :=
    if numbered.length < 3 then
      lines.foldl (fun choices line =>
        match matchBulletChoiceLine line with
        | some cap =>
          let choice := jsTrim cap
          if choice ≠ "" ∧ ¬ choices.contains choice then choices ++ [choice]
          else choices
        | none => choices) numbered
    else numbered
  padToThree withBullets

/-- A line consisting of JS whitespace only. -/
def isAllSpace (s : String) : Bool := s.data.all jsIsSpace

/-- Line test for `cleanStoryText` first regex
`\n\s*[1-3１-３]\s*[.):．）\]]\s*.+` (the part after the leading `\n`,
confined to one line). -/
def isNumberedArtifactLine (line : String) : Bool :=
  match line.data.dropWhile jsIsSpace with
  | c :: rest =>
    if c = '1' ∨ c = '2' ∨ c = '3' ∨ c = '１' ∨ c = '２' ∨ c = '３' then
      match rest.dropWhile jsIsSpace with
      | d :: rest2 =>
        if d = '.' ∨ d = ')' ∨ d = ':' ∨ d = '．' ∨ d = '）' ∨ d = ']' then
          rest2 ≠ []
        else false
      | [] => false
    else false
  | [] => false

/-- Line test for `cleanStoryText` second regex `\n\s*[-•]\s*.+`. -/
def isBulletArtifactLine (line : String) : Bool :=
  match line.data.dropWhile jsIsSpace with
  | c :: rest =>
    if c = '-' ∨ c = '•' then rest ≠ [] else false
  | [] => false

/-- Drop trailing whitespace-only lines (consumed by the `\s*` of the
artifact regexes when it spans blank lines before a matched item). -/
def dropTrailingBlankLines (ls : List String) : List String :=
  (ls.reverse.dropWhile isAllSpace).reverse

/-- Line-level model of one global `text.replace(/\n<artifact>/g, "")`
pass of `cleanStoryText`: every matched span starts at a newline, so the
first line always survives; a matched artifact line disappears together
with the whitespace-only lines directly above it (eaten by `\s*`). A
marker whose content is blank and whose `\s*`/`.+` would spill onto the
following line is treated line-locally here; no theorem depends on this
function. -/
def removeArtifactLines (isArtifact : String → Bool) (lines : List String) :
    List String :=
  match lines with
  | [] => []
  | first :: rest =>
    first :: rest.foldl (fun acc line =>
      if isArtifact line then dropTrailingBlankLines acc else acc ++ [line]) []

/-- The backtick character (code fences of `cleanStoryText`). -/
def backtickChar : Char := Char.ofNat 96

/-- Splits a character list around the first occurrence of `pat`. -/
def splitOnFirst (pat : List Char) : List Char → Option (List Char × List Char)
  | [] => if pat = [] then some ([], []) else none
  | c :: rest =>
    if pat.isPrefixOf (c :: rest) then some ([], (c :: rest).drop pat.length)
    else (splitOnFirst pat rest).map (fun p => (c :: p.1, p.2))

/-- `cleaned.replace(/<fence>[\s\S]*?<fence>/g, "")` where the fence is
three backticks: remove each non-greedy fenced block; an unmatched opener
stays. Fuel bounds the recursion by the text length. -/
def removeFencesAux : Nat → List Char → List Char
  | 0, cs => cs
  | fuel + 1, cs =>
    match splitOnFirst [backtickChar, backtickChar, backtickChar] cs with
    | none => cs
    | some (before, afterOpen) =>
      match splitOnFirst [backtickChar, backtickChar, backtickChar] afterOpen with
      | none => cs
      | some (_, afterClose) => before ++ removeFencesAux fuel afterClose

/-- Fence removal at full fuel. -/
def removeFences (cs : List Char) : List Char := removeFencesAux cs.length cs

/-- The character class `[A-Z0-9 _-]` of the bracketed-token regex. -/
def isCapsTokenChar (c : Char) : Bool :=
  ('A' ≤ c ∧ c ≤ 'Z') ∨ ('0' ≤ c ∧ c ≤ '9') ∨ c = ' ' ∨ c = '_' ∨ c = '-'

/-- `cleaned.replace(/\[[A-Z0-9 _-]{2,}\]/g, "")`: an opening bracket
followed by at least two class characters and a closing bracket is
removed (the class excludes `]`, so greedy matching admits no shorter
backtrack). -/
def removeCapsTokensAux : Nat → List Char → List Char
  | 0, cs => cs
  | fuel + 1, cs =>
    match cs with
    | [] => []
    | c :: rest =>
      if c = '[' then
        let run := rest.takeWhile isCapsTokenChar
        let rest2 := rest.drop run.length
        match rest2 with
        | d :: rest3 =>
          if run.length ≥ 2 ∧ d = ']' then removeCapsTokensAux fuel rest3
          else c :: removeCapsTokensAux fuel rest
        | [] => c :: removeCapsTokensAux fuel rest
      else c :: removeCapsTokensAux fuel rest

/-- Bracketed-token removal at full fuel. -/
def removeCapsTokens (cs : List Char) : List Char := removeCapsTokensAux cs.length cs

/-- The fallback story line of `cleanStoryText`. -/
def WATCHING_TEXT : String := "AM наблюдает за тобой в тишине..."

/-- `cleanStoryText` from the orchestrator service: strip list artifacts,
code fences and bracketed all-caps tokens, falling back to a fixed line
when everything was stripped. -/
def cleanStoryText (text : String) : String :=
  let pass1 := removeArtifactLines isNumberedArtifactLine (jsLines text)
  let pass2 := removeArtifactLines isBulletArtifactLine pass1
  let cleaned := jsTrim (String.intercalate "\n" pass2)
  let cleaned2 := jsTrim (String.mk (removeCapsTokens (removeFences cleaned.data)))
  if cleaned2 = "" then WATCHING_TEXT else cleaned2

example : extractChoices "1. Attack\n2. Run" =
    ["Attack", "Run", "Замереть и прислушаться"] := by decide

example : extractChoices "" = CHOICE_DEFAULTS := by decide

example : extractChoices "story\n1. [Open the hatch]\n2. Hide\n- Wait\n- Scream" =
    ["Open the hatch", "Hide", "Wait"] := by decide

/-- `orchestratorOutputSchema` from `models/schemas.ts` applied to a
parsed JSON value: a strict object with a non-empty `story_text` string
and exactly 3 non-empty string choices. -/
def orchestratorOutputParse (v : JSValue) : Option (String × List String) :=
  match v with
  | .obj fields =>
    if fields.all (fun p => p.1 = "story_text" ∨ p.1 = "choices") then
      match Args.get fields "story_text", Args.get fields "choices" with
      | some (.str storyText), some (.arr choiceVals) =>
        if storyText = "" then none
        else
          let choices := choiceVals.filterMap JSValue.asString
          if choices.length = choiceVals.length ∧ choices.length = 3 ∧
              choices.all (fun c => c ≠ "") then
            some (storyText, choices)
          else none
      | _, _ => none
    else none
  | _ => none

/-- `parseStructuredOutput` from the orchestrator service. `parsed`
stands for the result of `parseJsonWithCleanup(rawText)` (the raw-text
JSON recovery util is outside the embedded core and enters as a
parameter: `none` models a parse failure). -/
def parseStructuredOutput (parsed : Option JSValue) :
    Option (String × List String) :=
  match parsed with
  | none => none
  | some v =>
    match orchestratorOutputParse v with
    | some p => some (cleanStoryText p.1, p.2)
    | none => none

/-- `OrchestratorResponse` from the orchestrator service (the latest
schema restricts choices to plain strings, so `ChoicePayload` is
`String` here). -/
structure OrchestratorResponse where
  storyText : String
  choices : List String
  imagePrompt : Option String
  toolCalls : List ToolCallLog
  isGameOver : Bool
  gameOverDescription : Option String

/-- Default ending description synthesized when `hp <= 0`. -/
def HP_GAMEOVER_TEXT : String := "Твоё тело не выдержало. Тьма поглощает тебя."

/-- Default ending description synthesized when `sanity <= 0`. -/
def SANITY_GAMEOVER_TEXT : String :=
  "Твой разум рассыпался. Ты больше не понимаешь, кто ты."

/-- The `|| "AM молчит..."` fallback applied to the final model text. -/
def SILENT_TEXT : String := "AM молчит..."

/-- `buildResponse` from the orchestrator service. `finalText0` models
`getFinalTextFromResponse(data)` (the concatenated text parts of the last
model response) and `parsed` the JSON recovery of the resulting final
text, as in `parseStructuredOutput`. After assembling story and choices
it reconciles the game-over state: if no tool triggered game over but a
terminal stat is at or below zero, it latches `isGameOver` and fills in
the default ending description. -/
def buildResponse (finalText0 : String) (parsed : Option JSValue)
    (ctx : ExecutionContext) : OrchestratorResponse × GameState :=
  let finalText := if finalText0 = "" then SILENT_TEXT else finalText0
  let structured := parseStructuredOutput parsed
  let storyText := match structured with
    | some p => p.1
    | none => cleanStoryText finalText
  let choices := match structured with
    | some p => p.2
    | none => extractChoices finalText
  let reconciled :=
    if ¬ ctx.gameOverTriggered then
      if ctx.state.stats.hp ≤ 0 then (true, some HP_GAMEOVER_TEXT, true)
      else if ctx.state.stats.sanity ≤ 0 then
        (true, some SANITY_GAMEOVER_TEXT, true)
      else (ctx.gameOverTriggered, ctx.gameOverDescription, ctx.state.isGameOver)
    else (ctx.gameOverTriggered, ctx.gameOverDescription, ctx.state.isGameOver)
  ({ storyText := storyText
     choices := choices
     imagePrompt := ctx.imagePrompt
     toolCalls := ctx.toolCalls
     isGameOver := reconciled.1
     gameOverDescription := reconciled.2.1 },
   { ctx.state with isGameOver := reconciled.2.2 })

/-- `INTRO_TEXT` from `aiService.ts`. -/
def INTRO_TEXT : String :=
  "Ты приходишь в себя в холодной металлической капсуле. Воздух густой, пахнет озоном и ржавчиной. Вдалеке слышен скрежет — будто кто-то медленно грызет сталь. Голос, гладкий и бесчеловечный, звучит прямо в твоей голове: «Проснись. Я приготовил тебе новые муки»."

/-- `DEFAULT_STATS` from `aiService.ts` (there the attribute fields are
spelled `str`/`int`/`dex`). -/
def DEFAULT_STATS : PlayerStats :=
  { hp := 100, sanity := 100, strength := 5, intelligence := 5, dexterity := 5 }

/-- The `GameState` built by `createSession` (`aiService.ts`): default
stats, empty inventory and tags, intro line in history. The source omits
`turn`; the controller reads it as `state.turn ?? 0`, so it starts at 0
here. -/
def initialGameState : GameState :=
  { stats := DEFAULT_STATS
    inventory := []
    tags := []
    history := [{ role := "model", parts := INTRO_TEXT }]
    isGameOver := false
    turn := 0 }

/-- The history cap of `pushHistory` (`aiService.ts`). -/
def MAX_HISTORY : Nat := 24

/-- `pushHistoryEntry` from `aiService.ts`: append, then keep the most
recent `MAX_HISTORY` entries (`slice(-MAX_HISTORY)`). -/
def pushHistoryEntry (state : GameState) (entry : HistoryMessage) : GameState :=
  let h := state.history ++ [entry]
  { state with
      history := if h.length > MAX_HISTORY then h.drop (h.length - MAX_HISTORY) else h }

/-- `ChoiceCheckResult` from `models/types.ts`. -/
structure ChoiceCheckResult where
  stat : StatCheckType
  required : ℚ
  current : ℚ
  chance : ℚ
  roll : ℚ
  success : Bool
deriving Repr, DecidableEq

/-- `state.stats[check.stat]` indexing. -/
def statValue (stats : PlayerStats) : StatCheckType → ℚ
  | .strength => stats.strength
  | .intelligence => stats.intelligence
  | .dexterity => stats.dexterity

/-- `resolveChoiceCheck` from `gameController.ts`. `roll` stands for the
`Math.random()` draw from `[0, 1)`. A pending choice whose trimmed text
equals the trimmed action and which carries a check resolves to
`chance = clamp(current / required, 0, 1)` (or 1 when `required <= 0`)
and `success = roll <= chance`. -/
def resolveChoiceCheck (state : GameState) (action : String) (roll : ℚ) :
    Option ChoiceCheckResult :=
  match state.pendingChoices with
  | none => none
  | some pending =>
    if pending.isEmpty then none
    else
      let normalizedAction := jsTrim action
      match pending.find? (fun choice => jsTrim choice.text = normalizedAction) with
      | none => none
      | some matched =>
        match matched.check with
        | none => none
        | some check =>
          let current := statValue state.stats check.stat
          let required := check.required
          let rawChance := if required > 0 then current / required else 1
          let chance := max 0 (min 1 rawChance)
          some { stat := check.stat
                 required := required
                 current := current
                 chance := chance
                 roll := roll
                 success := decide (roll ≤ chance) }

/-- `normalizePendingChoices` from `gameController.ts`, at the
string-only choice payload the latest schema produces. -/
def normalizePendingChoices (choices : List String) : List ChoiceOption :=
  choices.map (fun text => { text := text })

/-- The `/action` route of `gameController.ts` after request validation
and session lookup, reduced to its state effects: a game-over session is
answered with status 409 and the state untouched; otherwise the turn
counter is incremented and the rest of the pipeline (`proceed`: choice
check, orchestration, history and pending-choice bookkeeping) runs on the
session, answering 200. -/
def postAction (proceed : GameState → String → GameState) (state : GameState)
    (action : String) : Nat × GameState :=
  if state.isGameOver then (409, state)
  else (200, proceed { state with turn := state.turn + 1 } action)

/-- States reachable from a fresh session through the mutations the
latest pipeline performs: tool execution over any execution context built
on the state, the turn-counter increment, history pushes, pending-choice
replacement, and the game-over reconciliation of `buildResponse`. -/
inductive Reachable : GameState → Prop where
  | init : Reachable initialGameState
  | tool {s : GameState} (tc : List ToolCallLog) (ip : Option String)
      (gt : Bool) (gd : Option String) (toolName : String) (args : Args)
      (freshId : String) (now : Nat) :
      Reachable s →
      Reachable ((executeTool
        { state := s, toolCalls := tc, imagePrompt := ip,
          gameOverTriggered := gt, gameOverDescription := gd }
        toolName args freshId now).2.state)
  | turnInc {s : GameState} : Reachable s → Reachable { s with turn := s.turn + 1 }
  | historyPush {s : GameState} (e : HistoryMessage) :
      Reachable s → Reachable (pushHistoryEntry s e)
  | setPending {s : GameState} (choices : List String) :
      Reachable s →
      Reachable { s with pendingChoices := some (normalizePendingChoices choices) }
  | reconcile {s : GameState} (finalText : String) (parsed : Option JSValue)
      (tc : List ToolCallLog) (ip : Option String) (gt : Bool)
      (gd : Option String) :
      Reachable s →
      Reachable ((buildResponse finalText parsed
        { state := s, toolCalls := tc, imagePrompt := ip,
          gameOverTriggered := gt, gameOverDescription := gd }).2)

/-! ## Helper lemmas -/

lemma clamp_lower (v mn mx : ℚ) : mn ≤ clamp v mn mx := le_max_left _ _

lemma clamp_upper (v mn mx : ℚ) (h : mn ≤ mx) : clamp v mn mx ≤ mx :=
  max_le h (min_le_left _ _)

lemma physicalModifier_range (stats : PlayerStats) :
    -(3/10 : ℚ) ≤ physicalModifier stats ∧ physicalModifier stats ≤ 3/10 :=
  ⟨clamp_lower _ _ _, clamp_upper _ _ _ (by norm_num)⟩

lemma mentalModifier_range (stats : PlayerStats) :
    -(1/4 : ℚ) ≤ mentalModifier stats ∧ mentalModifier stats ≤ 1/4 :=
  ⟨clamp_lower _ _ _, clamp_upper _ _ _ (by norm_num)⟩

lemma adjustNegativeDelta_le_neg_one (delta m : ℚ) (hd : delta < 0)
    (hm : m ≤ 3/10) : adjustNegativeDelta delta m ≤ -1 := by
  unfold adjustNegativeDelta
  rw [if_neg (by linarith)]
  have hscale : delta * (1 - m) < 0 :=
    mul_neg_of_neg_of_pos hd (by linarith)
  have hfloor : jsRound (delta * (1 - m)) ≤ 0 := by
    have h1 : jsRound (delta * (1 - m)) < 1 := by
      rw [jsRound, Int.floor_lt]
      push_cast
      linarith
    omega
  dsimp only
  split
  · norm_num
  · rename_i hne
    have h2 : jsRound (delta * (1 - m)) ≤ -1 := by omega
    exact_mod_cast h2

lemma floor_int_add_half (d : ℤ) : ⌊(d : ℚ) + 1/2⌋ = d := by
  rw [Int.floor_int_add]
  norm_num

lemma adjustNegativeDelta_ge_int (d : ℤ) (m : ℚ) (hd : (d : ℚ) < 0)
    (hm0 : 0 ≤ m) : (d : ℚ) ≤ adjustNegativeDelta (d : ℚ) m := by
  unfold adjustNegativeDelta
  rw [if_neg (by linarith)]
  have hdneg : d < 0 := by exact_mod_cast hd
  have hdle : d ≤ -1 := by omega
  have hscale : (d : ℚ) ≤ (d : ℚ) * (1 - m) := by nlinarith
  have hfloor : d ≤ jsRound ((d : ℚ) * (1 - m)) := by
    have h2 : jsRound ((d : ℚ)) ≤ jsRound ((d : ℚ) * (1 - m)) := by
      unfold jsRound
      exact Int.floor_le_floor (by linarith)
    have h3 : jsRound ((d : ℚ)) = d := floor_int_add_half d
    omega
  dsimp only
  split
  · have h4 : (d : ℚ) ≤ -1 := by exact_mod_cast hdle
    linarith
  · exact_mod_cast hfloor

/-! ## Claim theorems -/

/-- C9: for every strictly negative delta and every modifier actually
produced by the difficulty adjustment (the clamped physical or mental
modifier of any stats), the adjusted delta is never 0 — it is at most
-1, because a rounding that yields 0 is floored to -1. -/
theorem c9_negative_delta_never_zero :
    ∀ (delta : ℚ) (stats : PlayerStats), delta < 0 →
      adjustNegativeDelta delta (physicalModifier stats) ≤ -1 ∧
      adjustNegativeDelta delta (mentalModifier stats) ≤ -1 ∧
      adjustNegativeDelta delta (physicalModifier stats) ≠ 0 ∧
      adjustNegativeDelta delta (mentalModifier stats) ≠ 0 := by
  intro delta stats hd
  have h1 := adjustNegativeDelta_le_neg_one delta (physicalModifier stats) hd
    (physicalModifier_range stats).2
  have h2 := adjustNegativeDelta_le_neg_one delta (mentalModifier stats) hd
    ((mentalModifier_range stats).2.trans (by norm_num))
  exact ⟨h1, h2, by linarith, by linarith⟩

/-- Witness for C9 at the spec §8 damage-floor scenario: requested hp
delta -3 with stats that produce the maximal 0.3 reduction. -/
theorem c9_negative_delta_never_zero_witness :
    adjustNegativeDelta (-3)
      (physicalModifier { hp := 100, sanity := 100, strength := 20,
                          intelligence := 5, dexterity := 20 }) ≤ -1 ∧
    adjustNegativeDelta (-3)
      (mentalModifier { hp := 100, sanity := 100, strength := 20,
                        intelligence := 5, dexterity := 20 }) ≤ -1 ∧
    adjustNegativeDelta (-3)
      (physicalModifier { hp := 100, sanity := 100, strength := 20,
                          intelligence := 5, dexterity := 20 }) ≠ 0 ∧
    adjustNegativeDelta (-3)
      (mentalModifier { hp := 100, sanity := 100, strength := 20,
                        intelligence := 5, dexterity := 20 }) ≠ 0 :=
  c9_negative_delta_never_zero (-3) _ (by norm_num)

/-- C1 counterexample: with intent `combat` and stats below the baseline
(strength 0, dexterity 0) the physical modifier clamps to -0.3 and a
requested hp delta of -10 is adjusted to -13 — the magnitude grows, so
the adjustment does not only ever reduce the magnitude of a negative
delta. -/
theorem c1_counterexample_amplified_delta :
    (adjustStatUpdates [("hp", JSValue.num (-10))]
      { stats := { hp := 100, sanity := 100, strength := 0,
                     intelligence := 5, dexterity := 0 },
        inventory := [], tags := [], history := [], isGameOver := false,
        turn := 0 }
      (some { intent := .combat, confidence := 9/10, reasoning := "attack",
              suggestedDifficulty := "medium", emotionalTone := "aggressive" })).getNum "hp"
      = some (-13) ∧ ¬ ((-10 : ℚ) ≤ -13) := by
  constructor
  · simp only [adjustStatUpdates, Args.getNum, Args.get, Args.set,
      List.find?, List.map, List.isPrefixOf, JSValue.asNumber,
      physicalIntents, mentalIntents, physicalModifier, mentalModifier,
      adjustNegativeDelta, clamp, jsRound, List.contains, Option.map,
      Option.bind, Option.isSome]
    norm_num [JSValue.asNumber]
  · norm_num

/-- C1 (amended): the modifier produced by the intent-aware difficulty
adjustment is clamped to ±30% (hp) / ±25% (sanity); a strictly negative
integer delta always stays strictly negative (at most -1, never 0, so
the sign never flips), and its magnitude never grows — that is, the
adjusted delta stays at or above the requested delta — precisely when
the modifier is non-negative. (When low stats make the modifier negative
the magnitude can grow, as the counterexample shows; the original
claim's unconditional no-amplification fails.) -/
theorem c1_amended_modulation_bounds :
    (∀ stats : PlayerStats,
      -(3/10 : ℚ) ≤ physicalModifier stats ∧ physicalModifier stats ≤ 3/10) ∧
    (∀ stats : PlayerStats,
      -(1/4 : ℚ) ≤ mentalModifier stats ∧ mentalModifier stats ≤ 1/4) ∧
    (∀ delta m : ℚ, delta < 0 → m ≤ 3/10 →
      adjustNegativeDelta delta m ≤ -1) ∧
    (∀ (d : ℤ) (m : ℚ), (d : ℚ) < 0 → 0 ≤ m → m ≤ 3/10 →
      (d : ℚ) ≤ adjustNegativeDelta (d : ℚ) m ∧
      adjustNegativeDelta (d : ℚ) m ≤ -1) := by
  refine ⟨physicalModifier_range, mentalModifier_range, ?_, ?_⟩
  · intro delta m hd hm
    exact adjustNegativeDelta_le_neg_one delta m hd hm
  · intro d m hd hm0 hm1
    exact ⟨adjustNegativeDelta_ge_int d m hd hm0,
      adjustNegativeDelta_le_neg_one _ m hd hm1⟩

/-- Witness for C1 (amended) at the requested delta -3 under the maximal
positive reduction modifier 0.3. -/
theorem c1_amended_modulation_bounds_witness :
    (((-3 : ℤ) : ℚ) ≤ adjustNegativeDelta ((-3 : ℤ) : ℚ) (3/10) ∧
      adjustNegativeDelta ((-3 : ℤ) : ℚ) (3/10) ≤ -1) :=
  c1_amended_modulation_bounds.2.2.2 (-3) (3/10) (by norm_num) (by norm_num)
    (by norm_num)

lemma padToThree_length (cs : List String) : (padToThree cs).length = 3 := by
  unfold padToThree
  dsimp only
  split_ifs <;> simp_all [List.length_take, List.length_append]

lemma extractChoices_length (text : String) : (extractChoices text).length = 3 := by
  unfold extractChoices
  exact padToThree_length _

lemma orchestratorOutputParse_choices_len (v : JSValue)
    (q : String × List String) (h : orchestratorOutputParse v = some q) :
    q.2.length = 3 := by
  unfold orchestratorOutputParse at h
  cases v with
  | obj fields =>
    dsimp only at h
    split at h
    · split at h
      · split at h
        · exact absurd h (by simp)
        · split at h
          · rename_i hcond
            simp only [Option.some.injEq] at h
            rw [← h]
            exact hcond.2.1
          · exact absurd h (by simp)
      · exact absurd h (by simp)
    · exact absurd h (by simp)
  | str s => exact absurd h (by simp)
  | num q2 => exact absurd h (by simp)
  | bool b => exact absurd h (by simp)
  | null => exact absurd h (by simp)
  | arr xs => exact absurd h (by simp)

lemma parseStructuredOutput_choices_len (parsed : Option JSValue)
    (p : String × List String) (h : parseStructuredOutput parsed = some p) :
    p.2.length = 3 := by
  unfold parseStructuredOutput at h
  cases parsed with
  | none => exact absurd h (by simp)
  | some v =>
    dsimp only at h
    cases ho : orchestratorOutputParse v with
    | none => rw [ho] at h; exact absurd h (by simp)
    | some q =>
      rw [ho] at h
      simp only [Option.some.injEq] at h
      have := orchestratorOutputParse_choices_len v q ho
      rw [← h]
      exact this

/-- C5: the fallback choice extractor returns exactly 3 choices for every
input text (padding from `CHOICE_DEFAULTS`, truncating extras — on the
empty text the result is exactly the default filler list), and the
response built from any completed turn carries exactly 3 choices whether
it came from the structured-output path or the fallback extractor. -/
theorem c5_exactly_three_choices :
    (∀ text : String, (extractChoices text).length = 3) ∧
    extractChoices "" = CHOICE_DEFAULTS ∧
    (∀ (finalText : String) (parsed : Option JSValue) (ctx : ExecutionContext),
      (buildResponse finalText parsed ctx).1.choices.length = 3) := by
  refine ⟨extractChoices_length, by decide, ?_⟩
  intro finalText parsed ctx
  unfold buildResponse
  dsimp only
  cases hs : parseStructuredOutput parsed with
  | none => exact extractChoices_length _
  | some p => exact parseStructuredOutput_choices_len parsed p hs

/-- C7: whenever the resolver fires (a pending choice whose trimmed text
equals the trimmed action and which carries a check), the produced result
reads the named stat, has `chance = clamp(current / required, 0, 1)` for
`required > 0` and `chance = 1` for `required <= 0`, echoes the supplied
roll and declares success exactly when `roll <= chance`. -/
theorem c7_choice_check_formula :
    ∀ (state : GameState) (action : String) (roll : ℚ) (r : ChoiceCheckResult),
      resolveChoiceCheck state action roll = some r →
      r.current = statValue state.stats r.stat ∧
      r.chance = (if r.required > 0 then max 0 (min 1 (r.current / r.required))
        else 1) ∧
      (r.required ≤ 0 → r.chance = 1) ∧
      r.roll = roll ∧
      (r.success = true ↔ roll ≤ r.chance) := by
  intro state action roll r h
  unfold resolveChoiceCheck at h
  cases hpc : state.pendingChoices with
  | none => rw [hpc] at h; exact absurd h (by simp)
  | some pending =>
    rw [hpc] at h
    dsimp only at h
    split at h
    · exact absurd h (by simp)
    · split at h
      · exact absurd h (by simp)
      · rename_i matched hfind
        split at h
        · exact absurd h (by simp)
        · rename_i check hcheck
          simp only [Option.some.injEq] at h
          subst h
          refine ⟨rfl, ?_, ?_, rfl, ?_⟩
          · dsimp only
            split_ifs with h1
            · rfl
            · norm_num
          · intro hreq
            dsimp only
            split_ifs with h1
            · linarith
            · norm_num
          · dsimp only
            exact decide_eq_true_iff

/-- The session state of the C7 witness: strength 40, one pending choice
carrying a strength-80 check. -/
def choiceCheckWitnessState : GameState :=
  { stats := { hp := 100, sanity := 100, strength := 40, intelligence := 5,
               dexterity := 5 }
    inventory := []
    tags := []
    history := []
    isGameOver := false
    turn := 1
    pendingChoices := some [{ text := "Force the hatch",
                              check := some { stat := .strength,
                                              required := 80 } }] }

/-- The resolver output of the C7 witness: chance 1/2, roll 0.3,
success. -/
def choiceCheckWitnessResult : ChoiceCheckResult :=
  { stat := .strength, required := 80, current := 40, chance := 1/2,
    roll := 3/10, success := true }

lemma choiceCheckWitness_eval :
    resolveChoiceCheck choiceCheckWitnessState "Force the hatch" (3/10) =
      some choiceCheckWitnessResult := by
  simp [resolveChoiceCheck, choiceCheckWitnessState, choiceCheckWitnessResult,
    statValue, jsTrim, trimChars, jsIsSpace]
  norm_num

/-- Witness for C7 at the spec §8 scenario: current 40, required 80,
roll 0.3 — chance 1/2 and success. -/
theorem c7_choice_check_formula_witness :
    choiceCheckWitnessResult.current =
      statValue choiceCheckWitnessState.stats choiceCheckWitnessResult.stat ∧
    choiceCheckWitnessResult.chance =
      (if choiceCheckWitnessResult.required > 0 then
        max 0 (min 1 (choiceCheckWitnessResult.current /
          choiceCheckWitnessResult.required))
      else 1) ∧
    (choiceCheckWitnessResult.required ≤ 0 →
      choiceCheckWitnessResult.chance = 1) ∧
    choiceCheckWitnessResult.roll = 3/10 ∧
    (choiceCheckWitnessResult.success = true ↔
      (3/10 : ℚ) ≤ choiceCheckWitnessResult.chance) :=
  c7_choice_check_formula choiceCheckWitnessState "Force the hatch" (3/10)
    choiceCheckWitnessResult choiceCheckWitness_eval

example : resolveChoiceCheck choiceCheckWitnessState "Force the hatch" (7/10)
    = some { choiceCheckWitnessResult with roll := 7/10, success := false } := by
  simp [resolveChoiceCheck, choiceCheckWitnessState, choiceCheckWitnessResult,
    statValue, jsTrim, trimChars, jsIsSpace]
  norm_num

/-- C8 counterexample: `update_player_stats` does not validate `reason`.
A call with no arguments at all (so `reason` is missing) — and likewise
one with a whitespace-only `reason` — still returns a success result,
contradicting the claim that a missing or blank required `reason` yields
a failure result. -/
theorem c8_counterexample_reason_not_validated :
    (executeUpdatePlayerStats (createExecutionContext initialGameState) []).1.success
      = true ∧
    (executeUpdatePlayerStats (createExecutionContext initialGameState)
      [("reason", JSValue.str " ")]).1.success = true := by
  constructor <;> rfl

/-- C8 (amended): every tool rejects a missing, non-string or blank value
of the fields it actually validates (`action`/`itemName` for the
inventory, `tag` for the tag tools, `endingType`/`deathDescription` for
game over, and for the scene image `location`, `lighting`, `atmosphere`,
`visualDescription` as well as a missing/empty `materials` array) with a
failure result and an unchanged context rather than throwing — but the
`reason` field is never validated anywhere, and `update_player_stats`
validates nothing: it succeeds for every argument bag. -/
theorem c8_amended_blank_field_failures :
    (∀ (ctx : ExecutionContext) (args : Args) (freshId : String),
      validateNonEmptyString (args.get "action") = none →
      (executeInventoryAction ctx args freshId).1.success = false ∧
      (executeInventoryAction ctx args freshId).2 = ctx) ∧
    (∀ (ctx : ExecutionContext) (args : Args) (freshId : String),
      validateNonEmptyString (args.get "itemName") = none →
      (executeInventoryAction ctx args freshId).1.success = false ∧
      (executeInventoryAction ctx args freshId).2 = ctx) ∧
    (∀ (ctx : ExecutionContext) (args : Args),
      validateNonEmptyString (args.get "tag") = none →
      (executeAddTag ctx args).1.success = false ∧
      (executeAddTag ctx args).2 = ctx ∧
      (executeRemoveTag ctx args).1.success = false ∧
      (executeRemoveTag ctx args).2 = ctx) ∧
    (∀ (ctx : ExecutionContext) (args : Args),
      validateNonEmptyString (args.get "endingType") = none ∨
      validateNonEmptyString (args.get "deathDescription") = none →
      (executeTriggerGameOver ctx args).1.success = false ∧
      (executeTriggerGameOver ctx args).2 = ctx) ∧
    (∀ (ctx : ExecutionContext) (args : Args),
      validateNonEmptyString (args.get "location") = none ∨
      materialsArg (args.get "materials") = [] ∨
      validateNonEmptyString (args.get "lighting") = none ∨
      validateNonEmptyString (args.get "atmosphere") = none ∨
      validateNonEmptyString (args.get "visualDescription") = none →
      (executeGenerateSceneImage ctx args).1.success = false ∧
      (executeGenerateSceneImage ctx args).2 = ctx) ∧
    (∀ (ctx : ExecutionContext) (args : Args),
      (executeUpdatePlayerStats ctx args).1.success = true) := by
  refine ⟨?_, ?_, ?_, ?_, ?_, ?_⟩
  · intro ctx args freshId h
    unfold executeInventoryAction
    rw [h]
    exact ⟨rfl, rfl⟩
  · intro ctx args freshId h
    unfold executeInventoryAction
    cases ha : validateNonEmptyString (args.get "action") with
    | none => exact ⟨rfl, rfl⟩
    | some a =>
      dsimp only
      rw [h]
      exact ⟨rfl, rfl⟩
  · intro ctx args h
    unfold executeAddTag executeRemoveTag
    rw [h]
    exact ⟨rfl, rfl, rfl, rfl⟩
  · intro ctx args h
    unfold executeTriggerGameOver
    cases h with
    | inl h1 => rw [h1]; exact ⟨rfl, rfl⟩
    | inr h2 =>
      cases he : validateNonEmptyString (args.get "endingType") with
      | none => exact ⟨rfl, rfl⟩
      | some e =>
        dsimp only
        rw [h2]
        exact ⟨rfl, rfl⟩
  · intro ctx args h
    unfold executeGenerateSceneImage
    dsimp only
    cases hl : validateNonEmptyString (args.get "location") with
    | none => exact ⟨rfl, rfl⟩
    | some location =>
      dsimp only
      by_cases hm : (materialsArg (args.get "materials")).isEmpty = true
      · rw [if_pos hm]
        exact ⟨rfl, rfl⟩
      · rw [if_neg hm]
        cases hlg : validateNonEmptyString (args.get "lighting") with
        | none => exact ⟨rfl, rfl⟩
        | some lighting =>
          dsimp only
          cases hat : validateNonEmptyString (args.get "atmosphere") with
          | none => exact ⟨rfl, rfl⟩
          | some atmosphere =>
            dsimp only
            cases hvd : validateNonEmptyString (args.get "visualDescription") with
            | none => exact ⟨rfl, rfl⟩
            | some vd =>
              rcases h with h | h | h | h | h
              · rw [hl] at h
                exact absurd h (by simp)
              · exact absurd (by rw [h]; rfl) hm
              · rw [hlg] at h
                exact absurd h (by simp)
              · rw [hat] at h
                exact absurd h (by simp)
              · rw [hvd] at h
                exact absurd h (by simp)
  · intro ctx args
    unfold executeUpdatePlayerStats
    dsimp only

/-- Witness for C8 (amended): a whitespace-only `tag` makes both tag
tools fail, and a scene-image call with a blank `lighting` fails, each
leaving the context untouched. -/
theorem c8_amended_blank_field_failures_witness :
    ((executeAddTag (createExecutionContext initialGameState)
      [("tag", JSValue.str "  ")]).1.success = false ∧
    (executeAddTag (createExecutionContext initialGameState)
      [("tag", JSValue.str "  ")]).2 = createExecutionContext initialGameState ∧
    (executeRemoveTag (createExecutionContext initialGameState)
      [("tag", JSValue.str "  ")]).1.success = false ∧
    (executeRemoveTag (createExecutionContext initialGameState)
      [("tag", JSValue.str "  ")]).2 = createExecutionContext initialGameState) ∧
    (executeGenerateSceneImage (createExecutionContext initialGameState)
      [("location", JSValue.str "crypt"),
       ("materials", JSValue.arr [JSValue.str "stone"]),
       ("lighting", JSValue.str "   "),
       ("atmosphere", JSValue.str "eerie"),
       ("visualDescription", JSValue.str "dark vaults")]).1.success = false ∧
    (executeGenerateSceneImage (createExecutionContext initialGameState)
      [("location", JSValue.str "crypt"),
       ("materials", JSValue.arr [JSValue.str "stone"]),
       ("lighting", JSValue.str "   "),
       ("atmosphere", JSValue.str "eerie"),
       ("visualDescription", JSValue.str "dark vaults")]).2 =
      createExecutionContext initialGameState :=
  ⟨c8_amended_blank_field_failures.2.2.1 (createExecutionContext initialGameState)
    [("tag", JSValue.str "  ")] rfl,
   (c8_amended_blank_field_failures.2.2.2.2.1
      (createExecutionContext initialGameState)
      [("location", JSValue.str "crypt"),
       ("materials", JSValue.arr [JSValue.str "stone"]),
       ("lighting", JSValue.str "   "),
       ("atmosphere", JSValue.str "eerie"),
       ("visualDescription", JSValue.str "dark vaults")]
      (Or.inr (Or.inr (Or.inl rfl)))).1,
   (c8_amended_blank_field_failures.2.2.2.2.1
      (createExecutionContext initialGameState)
      [("location", JSValue.str "crypt"),
       ("materials", JSValue.arr [JSValue.str "stone"]),
       ("lighting", JSValue.str "   "),
       ("atmosphere", JSValue.str "eerie"),
       ("visualDescription", JSValue.str "dark vaults")]
      (Or.inr (Or.inr (Or.inl rfl)))).2⟩

/-! ### Per-executor effect lemmas -/

lemma executeUpdatePlayerStats_succeeds (ctx : ExecutionContext) (args : Args) :
    (executeUpdatePlayerStats ctx args).1.success = true := by
  unfold executeUpdatePlayerStats
  dsimp only

lemma executeInventoryAction_fail_eq (ctx : ExecutionContext) (args : Args)
    (freshId : String) :
    (executeInventoryAction ctx args freshId).1.success = false →
    (executeInventoryAction ctx args freshId).2 = ctx := by
  unfold executeInventoryAction
  cases validateNonEmptyString (args.get "action") with
  | none => intro _; rfl
  | some a =>
    dsimp only
    cases validateNonEmptyString (args.get "itemName") with
    | none => intro _; rfl
    | some n =>
      dsimp only
      split_ifs with hadd hrem
      · intro h; exact absurd h (by simp)
      · split
        · intro _; rfl
        · intro h; exact absurd h (by simp)
      · intro _; rfl

lemma executeAddTag_fail_eq (ctx : ExecutionContext) (args : Args) :
    (executeAddTag ctx args).1.success = false →
    (executeAddTag ctx args).2 = ctx := by
  unfold executeAddTag
  cases validateNonEmptyString (args.get "tag") with
  | none => intro _; rfl
  | some tag =>
    dsimp only
    split_ifs with hmem
    · intro h; exact absurd h (by simp)
    · intro h; exact absurd h (by simp)

lemma executeRemoveTag_fail_eq (ctx : ExecutionContext) (args : Args) :
    (executeRemoveTag ctx args).1.success = false →
    (executeRemoveTag ctx args).2 = ctx := by
  unfold executeRemoveTag
  cases validateNonEmptyString (args.get "tag") with
  | none => intro _; rfl
  | some tag =>
    dsimp only
    split
    · intro h; exact absurd h (by simp)
    · intro _; rfl

lemma executeTriggerGameOver_fail_eq (ctx : ExecutionContext) (args : Args) :
    (executeTriggerGameOver ctx args).1.success = false →
    (executeTriggerGameOver ctx args).2 = ctx := by
  unfold executeTriggerGameOver
  cases validateNonEmptyString (args.get "endingType") with
  | none => intro _; rfl
  | some e =>
    dsimp only
    cases validateNonEmptyString (args.get "deathDescription") with
    | none => intro _; rfl
    | some d => intro h; exact absurd h (by simp)

lemma executeGenerateSceneImage_fail_eq (ctx : ExecutionContext) (args : Args) :
    (executeGenerateSceneImage ctx args).1.success = false →
    (executeGenerateSceneImage ctx args).2 = ctx := by
  unfold executeGenerateSceneImage
  dsimp only
  cases validateNonEmptyString (args.get "location") with
  | none => intro _; rfl
  | some location =>
    dsimp only
    split
    · intro _; rfl
    · cases validateNonEmptyString (args.get "lighting") with
      | none => intro _; rfl
      | some lighting =>
        dsimp only
        cases validateNonEmptyString (args.get "atmosphere") with
        | none => intro _; rfl
        | some atmosphere =>
          dsimp only
          cases validateNonEmptyString (args.get "visualDescription") with
          | none => intro _; rfl
          | some vd => intro h; exact absurd h (by simp)

/-- C10: whenever `executeTool` reports failure — any tool name, any
arguments — the game state and the non-log context fields are exactly
what they were before the call, and the only effect is the one new
audit-log entry recording the failed invocation. -/
theorem c10_failed_tool_leaves_state_unchanged :
    ∀ (ctx : ExecutionContext) (toolName : String) (args : Args)
      (freshId : String) (now : Nat),
      (executeTool ctx toolName args freshId now).1.success = false →
      (executeTool ctx toolName args freshId now).2.state = ctx.state ∧
      (executeTool ctx toolName args freshId now).2.imagePrompt =
        ctx.imagePrompt ∧
      (executeTool ctx toolName args freshId now).2.gameOverTriggered =
        ctx.gameOverTriggered ∧
      (executeTool ctx toolName args freshId now).2.gameOverDescription =
        ctx.gameOverDescription ∧
      (executeTool ctx toolName args freshId now).2.toolCalls =
        ctx.toolCalls ++
          [{ toolName := toolName, args := args,
             result := (executeTool ctx toolName args freshId now).1,
             timestamp := now }] := by
  intro ctx toolName args freshId now
  unfold executeTool
  dsimp only
  split
  · rcases hx : executeUpdatePlayerStats ctx args with ⟨r, c1⟩
    intro h
    have hs := executeUpdatePlayerStats_succeeds ctx args
    rw [hx] at hs
    dsimp only at hs h
    simp_all
  · rcases hx : executeInventoryAction ctx args freshId with ⟨r, c1⟩
    intro h
    have he := executeInventoryAction_fail_eq ctx args freshId
      (by rw [hx]; dsimp only; exact h)
    rw [hx] at he
    dsimp only at he
    subst he
    exact ⟨rfl, rfl, rfl, rfl, rfl⟩
  · rcases hx : executeAddTag ctx args with ⟨r, c1⟩
    intro h
    have he := executeAddTag_fail_eq ctx args
      (by rw [hx]; dsimp only; exact h)
    rw [hx] at he
    dsimp only at he
    subst he
    exact ⟨rfl, rfl, rfl, rfl, rfl⟩
  · rcases hx : executeRemoveTag ctx args with ⟨r, c1⟩
    intro h
    have he := executeRemoveTag_fail_eq ctx args
      (by rw [hx]; dsimp only; exact h)
    rw [hx] at he
    dsimp only at he
    subst he
    exact ⟨rfl, rfl, rfl, rfl, rfl⟩
  · rcases hx : executeTriggerGameOver ctx args with ⟨r, c1⟩
    intro h
    have he := executeTriggerGameOver_fail_eq ctx args
      (by rw [hx]; dsimp only; exact h)
    rw [hx] at he
    dsimp only at he
    subst he
    exact ⟨rfl, rfl, rfl, rfl, rfl⟩
  · rcases hx : executeGenerateSceneImage ctx args with ⟨r, c1⟩
    intro h
    have he := executeGenerateSceneImage_fail_eq ctx args
      (by rw [hx]; dsimp only; exact h)
    rw [hx] at he
    dsimp only at he
    subst he
    exact ⟨rfl, rfl, rfl, rfl, rfl⟩
  · intro h
    exact ⟨rfl, rfl, rfl, rfl, rfl⟩

/-- Witness for C10: an unknown tool name fails and leaves everything but
the log untouched. -/
theorem c10_failed_tool_leaves_state_unchanged_witness :
    (executeTool (createExecutionContext initialGameState) "summon_demon" []
      "id-1" 7).2.state = (createExecutionContext initialGameState).state ∧
    (executeTool (createExecutionContext initialGameState) "summon_demon" []
      "id-1" 7).2.imagePrompt =
      (createExecutionContext initialGameState).imagePrompt ∧
    (executeTool (createExecutionContext initialGameState) "summon_demon" []
      "id-1" 7).2.gameOverTriggered =
      (createExecutionContext initialGameState).gameOverTriggered ∧
    (executeTool (createExecutionContext initialGameState) "summon_demon" []
      "id-1" 7).2.gameOverDescription =
      (createExecutionContext initialGameState).gameOverDescription ∧
    (executeTool (createExecutionContext initialGameState) "summon_demon" []
      "id-1" 7).2.toolCalls =
      (createExecutionContext initialGameState).toolCalls ++
        [{ toolName := "summon_demon", args := [],
           result := (executeTool (createExecutionContext initialGameState)
             "summon_demon" [] "id-1" 7).1,
           timestamp := 7 }] :=
  c10_failed_tool_leaves_state_unchanged (createExecutionContext initialGameState)
    "summon_demon" [] "id-1" 7 rfl

lemma executeUpdatePlayerStats_isGameOver (ctx : ExecutionContext) (args : Args) :
    (executeUpdatePlayerStats ctx args).2.state.isGameOver =
      ctx.state.isGameOver := by
  unfold executeUpdatePlayerStats
  dsimp only

lemma executeInventoryAction_isGameOver (ctx : ExecutionContext) (args : Args)
    (freshId : String) :
    (executeInventoryAction ctx args freshId).2.state.isGameOver =
      ctx.state.isGameOver := by
  unfold executeInventoryAction
  cases validateNonEmptyString (args.get "action") with
  | none => rfl
  | some a =>
    dsimp only
    cases validateNonEmptyString (args.get "itemName") with
    | none => rfl
    | some n =>
      dsimp only
      split_ifs with hadd hrem
      · rfl
      · split <;> rfl
      · rfl

lemma executeAddTag_isGameOver (ctx : ExecutionContext) (args : Args) :
    (executeAddTag ctx args).2.state.isGameOver = ctx.state.isGameOver := by
  unfold executeAddTag
  cases validateNonEmptyString (args.get "tag") with
  | none => rfl
  | some tag =>
    dsimp only
    split_ifs with hmem <;> rfl

lemma executeRemoveTag_isGameOver (ctx : ExecutionContext) (args : Args) :
    (executeRemoveTag ctx args).2.state.isGameOver = ctx.state.isGameOver := by
  unfold executeRemoveTag
  cases validateNonEmptyString (args.get "tag") with
  | none => rfl
  | some tag =>
    dsimp only
    split <;> rfl

lemma executeTriggerGameOver_latch (ctx : ExecutionContext) (args : Args)
    (h : ctx.state.isGameOver = true) :
    (executeTriggerGameOver ctx args).2.state.isGameOver = true := by
  unfold executeTriggerGameOver
  cases validateNonEmptyString (args.get "endingType") with
  | none => exact h
  | some e =>
    dsimp only
    cases validateNonEmptyString (args.get "deathDescription") with
    | none => exact h
    | some d => rfl

lemma executeGenerateSceneImage_isGameOver (ctx : ExecutionContext)
    (args : Args) :
    (executeGenerateSceneImage ctx args).2.state.isGameOver =
      ctx.state.isGameOver := by
  unfold executeGenerateSceneImage
  dsimp only
  cases validateNonEmptyString (args.get "location") with
  | none => rfl
  | some location =>
    dsimp only
    split
    · rfl
    · cases validateNonEmptyString (args.get "lighting") with
      | none => rfl
      | some lighting =>
        dsimp only
        cases validateNonEmptyString (args.get "atmosphere") with
        | none => rfl
        | some atmosphere =>
          dsimp only
          cases validateNonEmptyString (args.get "visualDescription") with
          | none => rfl
          | some vd => rfl

/-- C3: `isGameOver` is a one-way latch under tool execution — once true,
no tool call (any name, any arguments) resets it — and the `/action`
route answers a game-over session with a 409 conflict, leaving the
session state untouched (the pipeline past the guard never runs). -/
theorem c3_game_over_latch_and_conflict :
    (∀ (ctx : ExecutionContext) (toolName : String) (args : Args)
      (freshId : String) (now : Nat),
      ctx.state.isGameOver = true →
      (executeTool ctx toolName args freshId now).2.state.isGameOver = true) ∧
    (∀ (proceed : GameState → String → GameState) (state : GameState)
      (action : String),
      state.isGameOver = true →
      postAction proceed state action = (409, state)) := by
  constructor
  · intro ctx toolName args freshId now h
    unfold executeTool
    dsimp only
    split
    · rcases hx : executeUpdatePlayerStats ctx args with ⟨r, c1⟩
      have he := executeUpdatePlayerStats_isGameOver ctx args
      rw [hx] at he
      dsimp only at he ⊢
      rw [he, h]
    · rcases hx : executeInventoryAction ctx args freshId with ⟨r, c1⟩
      have he := executeInventoryAction_isGameOver ctx args freshId
      rw [hx] at he
      dsimp only at he ⊢
      rw [he, h]
    · rcases hx : executeAddTag ctx args with ⟨r, c1⟩
      have he := executeAddTag_isGameOver ctx args
      rw [hx] at he
      dsimp only at he ⊢
      rw [he, h]
    · rcases hx : executeRemoveTag ctx args with ⟨r, c1⟩
      have he := executeRemoveTag_isGameOver ctx args
      rw [hx] at he
      dsimp only at he ⊢
      rw [he, h]
    · rcases hx : executeTriggerGameOver ctx args with ⟨r, c1⟩
      have he := executeTriggerGameOver_latch ctx args h
      rw [hx] at he
      dsimp only at he ⊢
      rw [he]
    · rcases hx : executeGenerateSceneImage ctx args with ⟨r, c1⟩
      have he := executeGenerateSceneImage_isGameOver ctx args
      rw [hx] at he
      dsimp only at he ⊢
      rw [he, h]
    · exact h
  · intro proceed state action h
    unfold postAction
    rw [h]
    rfl

/-- Witness for C3: a game-over session is latched across an `add_tag`
call and conflicts on `/action`. -/
theorem c3_game_over_latch_and_conflict_witness :
    (executeTool
      (createExecutionContext { initialGameState with isGameOver := true })
      "add_tag" [("tag", JSValue.str "cursed")] "id-2" 9).2.state.isGameOver
      = true ∧
    postAction (fun s _ => s) { initialGameState with isGameOver := true }
      "look around" = (409, { initialGameState with isGameOver := true }) :=
  ⟨c3_game_over_latch_and_conflict.1
      (createExecutionContext { initialGameState with isGameOver := true })
      "add_tag" [("tag", JSValue.str "cursed")] "id-2" 9 rfl,
   c3_game_over_latch_and_conflict.2 (fun s _ => s)
      { initialGameState with isGameOver := true } "look around" rfl⟩

lemma clamp_0_100_nonneg (v : ℚ) : 0 ≤ clamp v 0 100 := le_max_left _ _

lemma clamp_0_100_le (v : ℚ) : clamp v 0 100 ≤ 100 :=
  max_le (by norm_num) (min_le_left _ _)

lemma executeUpdatePlayerStats_stats_bounds (ctx : ExecutionContext)
    (args : Args)
    (h : 0 ≤ ctx.state.stats.hp ∧ ctx.state.stats.hp ≤ 100 ∧
      0 ≤ ctx.state.stats.sanity ∧ ctx.state.stats.sanity ≤ 100) :
    0 ≤ (executeUpdatePlayerStats ctx args).2.state.stats.hp ∧
    (executeUpdatePlayerStats ctx args).2.state.stats.hp ≤ 100 ∧
    0 ≤ (executeUpdatePlayerStats ctx args).2.state.stats.sanity ∧
    (executeUpdatePlayerStats ctx args).2.state.stats.sanity ≤ 100 := by
  obtain ⟨h1, h2, h3, h4⟩ := h
  unfold executeUpdatePlayerStats
  cases hhp : args.getNum "hp" <;> cases hsan : args.getNum "sanity" <;>
    cases hst : args.getNum "strength" <;>
    cases hin : args.getNum "intelligence" <;>
    cases hdx : args.getNum "dexterity" <;>
    simp_all [clamp_0_100_nonneg, clamp_0_100_le]

lemma executeInventoryAction_stats (ctx : ExecutionContext) (args : Args)
    (freshId : String) :
    (executeInventoryAction ctx args freshId).2.state.stats =
      ctx.state.stats := by
  unfold executeInventoryAction
  cases validateNonEmptyString (args.get "action") with
  | none => rfl
  | some a =>
    dsimp only
    cases validateNonEmptyString (args.get "itemName") with
    | none => rfl
    | some n =>
      dsimp only
      split_ifs with hadd hrem
      · rfl
      · split <;> rfl
      · rfl

lemma executeAddTag_stats (ctx : ExecutionContext) (args : Args) :
    (executeAddTag ctx args).2.state.stats = ctx.state.stats := by
  unfold executeAddTag
  cases validateNonEmptyString (args.get "tag") with
  | none => rfl
  | some tag =>
    dsimp only
    split_ifs with hmem <;> rfl

lemma executeRemoveTag_stats (ctx : ExecutionContext) (args : Args) :
    (executeRemoveTag ctx args).2.state.stats = ctx.state.stats := by
  unfold executeRemoveTag
  cases validateNonEmptyString (args.get "tag") with
  | none => rfl
  | some tag =>
    dsimp only
    split <;> rfl

lemma executeTriggerGameOver_stats (ctx : ExecutionContext) (args : Args) :
    (executeTriggerGameOver ctx args).2.state.stats = ctx.state.stats := by
  unfold executeTriggerGameOver
  cases validateNonEmptyString (args.get "endingType") with
  | none => rfl
  | some e =>
    dsimp only
    cases validateNonEmptyString (args.get "deathDescription") with
    | none => rfl
    | some d => rfl

lemma executeGenerateSceneImage_stats (ctx : ExecutionContext) (args : Args) :
    (executeGenerateSceneImage ctx args).2.state.stats = ctx.state.stats := by
  unfold executeGenerateSceneImage
  dsimp only
  cases validateNonEmptyString (args.get "location") with
  | none => rfl
  | some location =>
    dsimp only
    split
    · rfl
    · cases validateNonEmptyString (args.get "lighting") with
      | none => rfl
      | some lighting =>
        dsimp only
        cases validateNonEmptyString (args.get "atmosphere") with
        | none => rfl
        | some atmosphere =>
          dsimp only
          cases validateNonEmptyString (args.get "visualDescription") with
          | none => rfl
          | some vd => rfl

lemma executeTool_stats_bounds (ctx : ExecutionContext) (toolName : String)
    (args : Args) (freshId : String) (now : Nat)
    (h : 0 ≤ ctx.state.stats.hp ∧ ctx.state.stats.hp ≤ 100 ∧
      0 ≤ ctx.state.stats.sanity ∧ ctx.state.stats.sanity ≤ 100) :
    0 ≤ (executeTool ctx toolName args freshId now).2.state.stats.hp ∧
    (executeTool ctx toolName args freshId now).2.state.stats.hp ≤ 100 ∧
    0 ≤ (executeTool ctx toolName args freshId now).2.state.stats.sanity ∧
    (executeTool ctx toolName args freshId now).2.state.stats.sanity ≤ 100 := by
  unfold executeTool
  dsimp only
  split
  · rcases hx : executeUpdatePlayerStats ctx args with ⟨r, c1⟩
    have hb := executeUpdatePlayerStats_stats_bounds ctx args h
    rw [hx] at hb
    exact hb
  · rcases hx : executeInventoryAction ctx args freshId with ⟨r, c1⟩
    have he := executeInventoryAction_stats ctx args freshId
    rw [hx] at he
    dsimp only at he ⊢
    rw [he]
    exact h
  · rcases hx : executeAddTag ctx args with ⟨r, c1⟩
    have he := executeAddTag_stats ctx args
    rw [hx] at he
    dsimp only at he ⊢
    rw [he]
    exact h
  · rcases hx : executeRemoveTag ctx args with ⟨r, c1⟩
    have he := executeRemoveTag_stats ctx args
    rw [hx] at he
    dsimp only at he ⊢
    rw [he]
    exact h
  · rcases hx : executeTriggerGameOver ctx args with ⟨r, c1⟩
    have he := executeTriggerGameOver_stats ctx args
    rw [hx] at he
    dsimp only at he ⊢
    rw [he]
    exact h
  · rcases hx : executeGenerateSceneImage ctx args with ⟨r, c1⟩
    have he := executeGenerateSceneImage_stats ctx args
    rw [hx] at he
    dsimp only at he ⊢
    rw [he]
    exact h
  · exact h

/-- C2: every state reachable from a fresh session — by any sequence of
tool executions and the turn bookkeeping — keeps `hp` and `sanity` inside
`[0, 100]`: the initial stats are 100/100 and `update_player_stats` (the
only stats writer) clamps both. -/
theorem c2_stats_invariant :
    ∀ s : GameState, Reachable s →
      0 ≤ s.stats.hp ∧ s.stats.hp ≤ 100 ∧
      0 ≤ s.stats.sanity ∧ s.stats.sanity ≤ 100 := by
  intro s h
  induction h with
  | init => norm_num [initialGameState, DEFAULT_STATS]
  | tool tc ip gt gd toolName args freshId now _ ih =>
    exact executeTool_stats_bounds _ toolName args freshId now ih
  | turnInc _ ih => exact ih
  | historyPush e _ ih => exact ih
  | setPending choices _ ih => exact ih
  | reconcile finalText parsed tc ip gt gd _ ih => exact ih

/-- Witness for C2: the invariant holds at the fresh session itself. -/
theorem c2_stats_invariant_witness :
    0 ≤ initialGameState.stats.hp ∧ initialGameState.stats.hp ≤ 100 ∧
    0 ≤ initialGameState.stats.sanity ∧
    initialGameState.stats.sanity ≤ 100 :=
  c2_stats_invariant initialGameState Reachable.init

/-- C4: after the tool loop, `buildResponse` reconciles game over: when a
terminal stat is at or below zero the returned response always reports
game over; and when the model never called the game-over tool
(`gameOverTriggered = false`) it latches the state and synthesizes the
fixed default ending description (the hp one first, else the sanity
one). -/
theorem c4_game_over_backstop :
    ∀ (finalText : String) (parsed : Option JSValue) (ctx : ExecutionContext),
      ((ctx.state.stats.hp ≤ 0 ∨ ctx.state.stats.sanity ≤ 0) →
        (buildResponse finalText parsed ctx).1.isGameOver = true) ∧
      (ctx.gameOverTriggered = false → ctx.state.stats.hp ≤ 0 →
        (buildResponse finalText parsed ctx).2.isGameOver = true ∧
        (buildResponse finalText parsed ctx).1.gameOverDescription =
          some HP_GAMEOVER_TEXT) ∧
      (ctx.gameOverTriggered = false → ¬ ctx.state.stats.hp ≤ 0 →
        ctx.state.stats.sanity ≤ 0 →
        (buildResponse finalText parsed ctx).2.isGameOver = true ∧
        (buildResponse finalText parsed ctx).1.gameOverDescription =
          some SANITY_GAMEOVER_TEXT) := by
  intro finalText parsed ctx
  unfold buildResponse
  dsimp only
  refine ⟨?_, ?_, ?_⟩
  · intro hterm
    by_cases hgt : ctx.gameOverTriggered = true
    · rw [if_neg (by simp [hgt])]
      exact hgt
    · rw [if_pos (by simp [hgt])]
      by_cases hhp : ctx.state.stats.hp ≤ 0
      · rw [if_pos hhp]
      · rw [if_neg hhp]
        by_cases hsan : ctx.state.stats.sanity ≤ 0
        · rw [if_pos hsan]
        · rcases hterm with h | h
          · exact absurd h hhp
          · exact absurd h hsan
  · intro hgt hhp
    rw [if_pos (by simp [hgt]), if_pos hhp]
    exact ⟨rfl, rfl⟩
  · intro hgt hhp hsan
    rw [if_pos (by simp [hgt]), if_neg hhp, if_pos hsan]
    exact ⟨rfl, rfl⟩

/-- The execution context of the C4 witness: hp already at 0, no
tool-triggered game over. -/
def backstopWitnessCtx : ExecutionContext :=
  createExecutionContext
    { initialGameState with
        stats := { hp := 0, sanity := 40, strength := 5, intelligence := 5,
                   dexterity := 5 } }

/-- Witness for C4: the hp-0 context is reconciled into a game-over
response with the default hp ending. -/
theorem c4_game_over_backstop_witness :
    (buildResponse "The end." none backstopWitnessCtx).1.isGameOver = true ∧
    (buildResponse "The end." none backstopWitnessCtx).2.isGameOver = true ∧
    (buildResponse "The end." none backstopWitnessCtx).1.gameOverDescription =
      some HP_GAMEOVER_TEXT := by
  obtain ⟨ha, hb, hc⟩ := c4_game_over_backstop "The end." none backstopWitnessCtx
  have hhp : backstopWitnessCtx.state.stats.hp ≤ 0 := by
    norm_num [backstopWitnessCtx, createExecutionContext]
  exact ⟨ha (Or.inl hhp), (hb rfl hhp).1, (hb rfl hhp).2⟩

lemma validateNonEmptyString_fixed (s : String) (ht : jsTrim s = s)
    (hne : s ≠ "") : validateNonEmptyString (some (.str s)) = some s := by
  unfold validateNonEmptyString
  dsimp only
  rw [ht, if_neg hne]

lemma materialsArg_strings (ms : List String) (h : ∀ m ∈ ms, jsTrim m ≠ "") :
    materialsArg (some (.arr (ms.map .str))) = ms := by
  unfold materialsArg
  induction ms with
  | nil => rfl
  | cons m rest ih =>
    simp only [List.map_cons, List.filterMap_cons]
    rw [if_neg (h m (by simp))]
    have := ih (fun x hx => h x (by simp [hx]))
    simp only [List.filterMap_map] at this ⊢
    rw [this]

/-- C6: the continuity prefix follows the four-case algorithm — same
location with overlapping materials gives the `Continuing in` prompt,
same location without overlap the `Still in ... environment changed`
prompt, a different (non-empty) previous location the
`Transitioning from A to B` prompt, no previous location the
`Starting location` prompt — and `executeGenerateSceneImage` stores
exactly this contextual prompt (suffixed with the style tail) as the
image prompt for any valid argument bag. -/
theorem c6_continuity_prefix_cases :
    (∀ (e : EnvironmentContext) (location : String) (materials : List String)
      (lighting atmosphere vd : String),
      e.materials.any (fun m => materials.contains m) = true →
      contextualPrompt (some e) (some location) location materials lighting
        atmosphere vd =
        "Continuing in " ++ location ++ " (" ++
          envDetails materials lighting atmosphere ++ "): " ++ vd) ∧
    (∀ (e : EnvironmentContext) (location : String) (materials : List String)
      (lighting atmosphere vd : String),
      e.materials.any (fun m => materials.contains m) = false →
      contextualPrompt (some e) (some location) location materials lighting
        atmosphere vd =
        "Still in " ++ location ++ ", but environment changed (" ++
          envDetails materials lighting atmosphere ++ "): " ++ vd) ∧
    (∀ (e : EnvironmentContext) (prev location : String)
      (materials : List String) (lighting atmosphere vd : String),
      prev ≠ "" → prev ≠ location →
      contextualPrompt (some e) (some prev) location materials lighting
        atmosphere vd =
        "Transitioning from " ++ prev ++ " to " ++ location ++ " (" ++
          envDetails materials lighting atmosphere ++ "): " ++ vd) ∧
    (∀ (location : String) (materials : List String)
      (lighting atmosphere vd : String),
      contextualPrompt none none location materials lighting atmosphere vd =
        "Starting location " ++ location ++ " (" ++
          envDetails materials lighting atmosphere ++ "): " ++ vd) ∧
    (∀ (ctx : ExecutionContext) (location : String) (materials : List String)
      (lighting atmosphere vd style : String),
      jsTrim location = location → location ≠ "" →
      (∀ m ∈ materials, jsTrim m ≠ "") → materials ≠ [] →
      jsTrim lighting = lighting → lighting ≠ "" →
      jsTrim atmosphere = atmosphere → atmosphere ≠ "" →
      jsTrim vd = vd → vd ≠ "" → style ≠ "" →
      (executeGenerateSceneImage ctx
        [("location", .str location), ("materials", .arr (materials.map .str)),
         ("lighting", .str lighting), ("atmosphere", .str atmosphere),
         ("visualDescription", .str vd), ("style", .str style)]).2.imagePrompt =
        some (contextualPrompt ctx.state.environment ctx.state.currentLocation
          location materials lighting atmosphere vd ++ ", " ++ style ++
          " style, cinematic lighting, detailed, atmospheric")) := by
  refine ⟨?_, ?_, ?_, ?_, ?_⟩
  · intro e location materials lighting atmosphere vd hov
    unfold contextualPrompt
    rw [if_pos (by simp)]
    dsimp only
    rw [if_pos (by simpa using hov)]
  · intro e location materials lighting atmosphere vd hov
    unfold contextualPrompt
    rw [if_pos (by simp)]
    dsimp only
    rw [if_neg (by simpa using hov)]
  · intro e prev location materials lighting atmosphere vd hne hdiff
    unfold contextualPrompt
    rw [if_neg (by simp [hdiff])]
    rw [if_pos (by simp [optStrTruthy, hne, hdiff])]
    dsimp only [Option.getD]
  · intro location materials lighting atmosphere vd
    unfold contextualPrompt
    rw [if_neg (by simp)]
    rw [if_neg (by simp [optStrTruthy])]
  · intro ctx location materials lighting atmosphere vd style
      hlt hl0 hmne hm0 hlgt hlg0 hatt hat0 hvt hv0 hs0
    unfold executeGenerateSceneImage
    simp [Args.get, List.find?, validateNonEmptyString, materialsArg_strings
      materials hmne, hm0, JSValue.truthy, JSValue.display, hlt, hl0, hlgt,
      hlg0, hatt, hat0, hvt, hv0, hs0]

/-- Witness for C6 at the spec §8 scenario: previous environment
`metal_capsule` with materials `metal, rust`; a new call in
`metal_capsule` with overlapping materials continues, and one in
`ancient_temple` transitions. -/
theorem c6_continuity_prefix_cases_witness :
    contextualPrompt
      (some { location := "metal_capsule", materials := ["metal", "rust"],
              lighting := "dim_red", atmosphere := "claustrophobic" })
      (some "metal_capsule") "metal_capsule" ["metal", "rust", "corrosion"]
      "dim_red" "eerie" "rusted walls" =
      "Continuing in " ++ "metal_capsule" ++ " (" ++
        envDetails ["metal", "rust", "corrosion"] "dim_red" "eerie" ++
        "): " ++ "rusted walls" ∧
    contextualPrompt
      (some { location := "metal_capsule", materials := ["metal", "rust"],
              lighting := "dim_red", atmosphere := "claustrophobic" })
      (some "metal_capsule") "ancient_temple" ["stone"] "torchlight" "vast"
      "carved pillars" =
      "Transitioning from " ++ "metal_capsule" ++ " to " ++ "ancient_temple" ++
        " (" ++ envDetails ["stone"] "torchlight" "vast" ++ "): " ++
        "carved pillars" :=
  ⟨c6_continuity_prefix_cases.1
      { location := "metal_capsule", materials := ["metal", "rust"],
        lighting := "dim_red", atmosphere := "claustrophobic" }
      "metal_capsule" ["metal", "rust", "corrosion"] "dim_red" "eerie"
      "rusted walls" (by decide),
   c6_continuity_prefix_cases.2.2.1
      { location := "metal_capsule", materials := ["metal", "rust"],
        lighting := "dim_red", atmosphere := "claustrophobic" }
      "metal_capsule" "ancient_temple" ["stone"] "torchlight" "vast"
      "carved pillars" (by decide) (by decide)⟩
